import Mathlib

/-!
# Verification of the AIbot conversation controller (src/src/App.tsx)

A shallow embedding of the chat client's conversation-state lifecycle:
the transcript store, the draft input, the loading flag, the submission
handler `handleSubmit`, the remote-call wrapper `callGroqAPI`, the
"new chat" reset, and the startup credential test `testApiKey`.

JavaScript values reachable from the HTTP response body are modelled by
`JsVal`; property access follows JavaScript semantics (access on
`null`/`undefined` throws a TypeError, a missing key on an object yields
`undefined`).  React state setters with functional updaters are modelled
by splitting `handleSubmit` into a synchronous first phase and a
resolution phase applied to whatever state is current when the awaited
call settles.
-/

/-- The `role` field of a `Message` (App.tsx line 11). -/
inductive Role where
  | user
  | assistant
deriving DecidableEq, Repr

/-- JavaScript values, as far as the code inspects them: the response
body `response.data`, message contents, and error payloads. -/
inductive JsVal where
  | str (s : String)
  | num (n : Int)
  | bool (b : Bool)
  | obj (fields : List (String × JsVal))
  | arr (elems : List JsVal)
  | null
  | undefined

/-- JavaScript property access `v.k`: throws (`.error`) on `null` and
`undefined`, yields the field or `undefined` on an object, and yields
`undefined` on other primitives. -/
def jsGet : JsVal → String → Except Unit JsVal
  | .obj fields, k => .ok ((fields.lookup k).getD .undefined)
  | .null, _ => .error ()
  | .undefined, _ => .error ()
  | _, _ => .ok .undefined

/-- JavaScript index access `v[i]` for a numeric literal index. -/
def jsIndex : JsVal → Nat → Except Unit JsVal
  | .arr elems, i => .ok ((elems.get? i).getD .undefined)
  | .obj fields, i => .ok ((fields.lookup (toString i)).getD .undefined)
  | .null, _ => .error ()
  | .undefined, _ => .error ()
  | _, _ => .ok .undefined

/-- Optional chaining `v?.k`: never throws; short-circuits `null` and
`undefined` to `undefined`. -/
def jsGetOpt (v : JsVal) (k : String) : JsVal :=
  match jsGet v k with
  | .ok r => r
  | .error _ => .undefined

/-- JavaScript truthiness, used by the `||` fallback on the error
message chain. -/
def jsTruthy : JsVal → Bool
  | .str s => s ≠ ""
  | .num n => n ≠ 0
  | .bool b => b
  | .null => false
  | .undefined => false
  | .obj _ => true
  | .arr _ => true

/-- `a || b` on JavaScript values. -/
def jsOr (a b : JsVal) : JsVal :=
  if jsTruthy a then a else b

/-- The `Message` interface (App.tsx lines 8-12).  `content` is typed
`string` in TypeScript but at runtime holds whatever
`response.data.choices[0].message.content` evaluated to, so it is a
`JsVal` here; user-typed content is always `.str`. -/
structure Message where
  id : String
  content : JsVal
  role : Role

/-- The `Tool` union type (App.tsx line 14). -/
inductive Tool where
  | chat
  | editor
  | chart
deriving DecidableEq, Repr

/-- The component state relevant to the conversation controller:
`messages`, `input`, `isLoading`, `activeTool` (App.tsx lines 18-21)
and the active i18n language. -/
structure AppState where
  messages : List Message
  input : String
  isLoading : Bool
  activeTool : Tool
  lang : String

/-- Serialization of a message role into the request body string. -/
def roleString : Role → String
  | .user => "user"
  | .assistant => "assistant"

/-- The `!apiKey` test (App.tsx lines 27 and 72): the credential is
missing when the environment variable is absent or the empty string
(both falsy). -/
def credentialMissing (apiKey : Option String) : Bool :=
  match apiKey with
  | none => true
  | some s => s == ""

/-- A request issued to the chat-completions endpoint: the POST body
fields the code sets.  `temperature` stands for the JavaScript numeric
literal `0.7` as the rational it denotes. -/
structure ApiRequest where
  url : String
  model : String
  messages : List (String × JsVal)
  temperature : Option ℚ
  maxTokens : Nat

/-- What the remote endpoint does once a request is issued: resolves
with a 2xx body, rejects with a non-2xx response carrying
`error.response.data`, or rejects with no response at all. -/
inductive UpstreamResult where
  | ok (data : JsVal)
  | httpError (respData : JsVal)
  | networkError

/-- `response.data.choices[0].message.content` (App.tsx line 94),
with JavaScript access semantics at every step. -/
def extractContent (data : JsVal) : Except Unit JsVal :=
  match jsGet data "choices" with
  | .error u => .error u
  | .ok c =>
    match jsIndex c 0 with
    | .error u => .error u
    | .ok c0 =>
      match jsGet c0 "message" with
      | .error u => .error u
      | .ok m => jsGet m "content"

/-- `error.response?.data?.error?.message` (App.tsx line 97) for an
axios error whose `response.data` is `respData`. -/
def chainErrMessage (respData : JsVal) : JsVal :=
  jsGetOpt (jsGetOpt respData "error") "message"

/-- The generic fallback thrown when no upstream message is available
(App.tsx line 97). -/
def fallbackErrorMsg : String := "Failed to get response from Groq API"

/-- The observable outcome of one `callGroqAPI` invocation: the request
issued, if any, and the value returned or the argument of the `Error`
ultimately thrown. -/
structure GatewayCall where
  request : Option ApiRequest
  result : Except JsVal JsVal

/-- `callGroqAPI` (App.tsx lines 68-99).  With a missing credential the
`throw new Error('API key is missing')` is caught by the function's own
`catch`, whose rethrow falls back to the generic message because a
plain `Error` has no `response` property.  A TypeError raised while
extracting the content is caught the same way.  No request is issued
when the credential is missing; otherwise the body carries every
message's `{role, content}` pair in order. -/
def callGroqAPI (apiKey : Option String) (userMessages : List Message)
    (upstream : UpstreamResult) : GatewayCall :=
  if credentialMissing apiKey then
    { request := none
      result := .error (.str fallbackErrorMsg) }
  else
    let req : ApiRequest :=
      { url := "https://api.groq.com/v1/chat/completions"
        model := "mixtral-8x7b-32768"
        messages := userMessages.map fun m => (roleString m.role, m.content)
        temperature := some (7 / 10 : ℚ)
        maxTokens := 2048 }
    match upstream with
    | .ok data =>
        match extractContent data with
        | .ok v => { request := some req, result := .ok v }
        | .error _ =>
            { request := some req
              result := .error (.str fallbackErrorMsg) }
    | .httpError respData =>
        { request := some req
          result := .error (jsOr (chainErrMessage respData) (.str fallbackErrorMsg)) }
    | .networkError =>
        { request := some req
          result := .error (.str fallbackErrorMsg) }

/-- Modelled from the spec: the localization lookup table consumed via
`t('error.apiError')` lives in i18n resource files that are not under
src/; per the spec it is a key-to-string table keyed by a language tag
with a default and one alternate, yielding a fixed localized "API
error" message. -/
def tApiError (lang : String) : String :=
  if lang == "zh" then "请求出错，请稍后重试" else "Sorry, something went wrong. Please try again."

/-- JavaScript `String.prototype.trim`: strip leading and trailing
whitespace.  (Lean's own `String.trim` is equivalent on the inputs of
interest but does not reduce in the kernel, so the stripping is spelled
out over the character list.) -/
def jsTrim (s : String) : String :=
  ⟨((s.data.dropWhile Char.isWhitespace).reverse.dropWhile Char.isWhitespace).reverse⟩

/-- The submission guard `!input.trim() || isLoading`
(App.tsx line 103). -/
def submitGuardFails (s : AppState) : Bool :=
  jsTrim s.input == "" || s.isLoading

/-- The user `Message` built at submission time (App.tsx lines
105-109); `now` is the `Date.now()` reading. -/
def userMessageOf (s : AppState) (now : Nat) : Message :=
  { id := toString now, content := .str (jsTrim s.input), role := .user }

/-- The synchronous first phase of `handleSubmit` (App.tsx lines
101-121): guard check, append the user message, clear the input, raise
the loading flag, and form `conversationHistory = [...messages,
userMessage]` from the pre-call state.  Returns the new state and the
history passed to `callGroqAPI`, or `none` when the guard made the
submission inert. -/
def submitPhase1 (s : AppState) (now : Nat) : AppState × Option (List Message) :=
  if submitGuardFails s then (s, none)
  else
    let um := userMessageOf s now
    ({ s with
        messages := s.messages ++ [um]
        input := ""
        isLoading := true },
      some (s.messages ++ [um]))

/-- The resolution of the awaited call (App.tsx lines 119-140): on
success append an assistant message carrying the returned value, on any
caught error append an assistant message carrying the localized
`t('error.apiError')` string, and in both cases finally clear the
loading flag.  `setMessages(prev => ...)` is a functional update, so it
applies to whatever state is current at resolution time (`s` here), not
to the state captured when the call began. -/
def resolveCall (s : AppState) (now2 : Nat) (result : Except JsVal JsVal) : AppState :=
  match result with
  | .ok v =>
      { s with
          messages := s.messages ++ [{ id := toString now2, content := v, role := .assistant }]
          isLoading := false }
  | .error _ =>
      { s with
          messages :=
            s.messages ++ [{ id := toString now2, content := .str (tApiError s.lang), role := .assistant }]
          isLoading := false }

/-- `handleSubmit` run to completion with nothing interleaved between
the call being issued and its resolution: phase 1, the gateway call on
the returned history, then resolution.  Returns the final state and the
request issued, if any. -/
def handleSubmit (s : AppState) (now now2 : Nat) (apiKey : Option String)
    (upstream : UpstreamResult) : AppState × Option ApiRequest :=
  match submitPhase1 s now with
  | (s1, none) => (s1, none)
  | (s1, some history) =>
      let call := callGroqAPI apiKey history upstream
      (resolveCall s1 now2 call.result, call.request)

/-- The "new chat" button handler (App.tsx lines 222-225): clears the
transcript and the draft input, touching nothing else. -/
def newChat (s : AppState) : AppState :=
  { s with messages := [], input := "" }

/-- The language toggle (App.tsx lines 171-174). -/
def toggleLanguage (s : AppState) : AppState :=
  { s with lang := if s.lang == "en" then "zh" else "en" }

/-- The startup effect (App.tsx lines 25-33 and 35-51): when a
credential is configured, `testApiKey` issues one completion request
with the single user message "Hello" capped at 10 output tokens; both
its branches only log, so the component state is returned unchanged in
every case. -/
def startupEffect (s : AppState) (apiKey : Option String) :
    AppState × Option ApiRequest :=
  if credentialMissing apiKey then (s, none)
  else
    (s, some
      { url := "https://api.groq.com/v1/chat/completions"
        model := "mixtral-8x7b-32768"
        messages := [("user", .str "Hello")]
        temperature := none
        maxTokens := 10 })

/-- A sample idle state used by the witness theorems. -/
def sEx : AppState :=
  { messages := [], input := "  hi  ", isLoading := false, activeTool := .chat, lang := "en" }

/-- A well-formed success body: `{choices: [{message: {content: "Hello!"}}]}`. -/
def goodData : JsVal :=
  .obj [("choices", .arr [.obj [("message", .obj [("content", .str "Hello!")])]])]

/-- A malformed success body whose first choice's `message` object lacks a
`content` key: `{choices: [{message: {}}]}`. -/
def noContentData : JsVal :=
  .obj [("choices", .arr [.obj [("message", .obj [])]])]

/-- C1: when the guard passes, entering the submitting state appends a user
turn whose content is exactly the trimmed draft, clears the draft to the
empty string, sets the loading flag, and the history handed to the gateway
call is precisely the already-updated transcript. -/
theorem submit_begins_appends_trimmed_clears_and_loads (s : AppState) (now : Nat)
    (h : submitGuardFails s = false) :
    (submitPhase1 s now).2 = some (submitPhase1 s now).1.messages
    ∧ (submitPhase1 s now).1.messages
        = s.messages ++ [{ id := toString now, content := .str (jsTrim s.input), role := .user }]
    ∧ (submitPhase1 s now).1.input = ""
    ∧ (submitPhase1 s now).1.isLoading = true := by
  simp [submitPhase1, h, userMessageOf]

/-- Witness for C1 at a concrete state with draft `"  hi  "`. -/
theorem submit_begins_appends_trimmed_clears_and_loads_witness :
    submitGuardFails sEx = false
    ∧ ((submitPhase1 sEx 5).2 = some (submitPhase1 sEx 5).1.messages
      ∧ (submitPhase1 sEx 5).1.messages
          = sEx.messages ++ [{ id := toString 5, content := .str (jsTrim sEx.input), role := .user }]
      ∧ (submitPhase1 sEx 5).1.input = ""
      ∧ (submitPhase1 sEx 5).1.isLoading = true) :=
  ⟨by decide, submit_begins_appends_trimmed_clears_and_loads sEx 5 (by decide)⟩

/-- C2: whenever a request is issued, its `messages` body is the map of the
entire transcript including the just-appended user turn, each turn's role and
content carried over unchanged, in insertion order, with the fixed model,
temperature and token cap. -/
theorem gateway_payload_is_full_transcript (s : AppState) (now now2 : Nat)
    (apiKey : String) (upstream : UpstreamResult)
    (hg : submitGuardFails s = false)
    (hk : credentialMissing (some apiKey) = false) :
    (handleSubmit s now now2 (some apiKey) upstream).2
      = some
        { url := "https://api.groq.com/v1/chat/completions"
          model := "mixtral-8x7b-32768"
          messages := (s.messages ++ [userMessageOf s now]).map fun m => (roleString m.role, m.content)
          temperature := some (7 / 10 : ℚ)
          maxTokens := 2048 } := by
  cases upstream with
  | ok data =>
      cases hres : extractContent data with
      | ok v => simp [handleSubmit, submitPhase1, hg, callGroqAPI, hk, hres]
      | error u => simp [handleSubmit, submitPhase1, hg, callGroqAPI, hk, hres]
  | httpError respData => simp [handleSubmit, submitPhase1, hg, callGroqAPI, hk]
  | networkError => simp [handleSubmit, submitPhase1, hg, callGroqAPI, hk]

/-- Witness for C2: a concrete submission over a network failure. -/
theorem gateway_payload_is_full_transcript_witness :
    submitGuardFails sEx = false
    ∧ credentialMissing (some "gsk_test") = false
    ∧ (handleSubmit sEx 5 6 (some "gsk_test") .networkError).2
        = some
          { url := "https://api.groq.com/v1/chat/completions"
            model := "mixtral-8x7b-32768"
            messages := (sEx.messages ++ [userMessageOf sEx 5]).map fun m => (roleString m.role, m.content)
            temperature := some (7 / 10 : ℚ)
            maxTokens := 2048 } :=
  ⟨by decide, by decide,
    gateway_payload_is_full_transcript sEx 5 6 "gsk_test" .networkError (by decide) (by decide)⟩

/-- C3: the loading flag is false after resolution on every path, and on any
gateway failure exactly one assistant turn is appended whose content is the
fixed localized error string for the active language, never the underlying
error's payload. -/
theorem failure_appends_localized_error_and_clears_loading (s : AppState)
    (now now2 : Nat) (apiKey : Option String) (upstream : UpstreamResult)
    (hg : submitGuardFails s = false) :
    (handleSubmit s now now2 apiKey upstream).1.isLoading = false
    ∧ ∀ e : JsVal,
        (callGroqAPI apiKey (s.messages ++ [userMessageOf s now]) upstream).result = .error e →
        (handleSubmit s now now2 apiKey upstream).1.messages
          = s.messages ++ [userMessageOf s now,
              { id := toString now2, content := .str (tApiError s.lang), role := .assistant }] := by
  constructor
  · cases hres : (callGroqAPI apiKey (s.messages ++ [userMessageOf s now]) upstream).result with
    | ok v => simp [handleSubmit, submitPhase1, hg, resolveCall, hres]
    | error e => simp [handleSubmit, submitPhase1, hg, resolveCall, hres]
  · intro e he
    simp [handleSubmit, submitPhase1, hg, resolveCall, he]

/-- Witness for C3: a concrete submission with no credential configured. -/
theorem failure_appends_localized_error_and_clears_loading_witness :
    submitGuardFails sEx = false
    ∧ (callGroqAPI none (sEx.messages ++ [userMessageOf sEx 5]) .networkError).result
        = .error (.str fallbackErrorMsg)
    ∧ (handleSubmit sEx 5 6 none .networkError).1.isLoading = false
    ∧ (handleSubmit sEx 5 6 none .networkError).1.messages
        = sEx.messages ++ [userMessageOf sEx 5,
            { id := toString 6, content := .str (tApiError sEx.lang), role := .assistant }] :=
  ⟨by decide, rfl,
    (failure_appends_localized_error_and_clears_loading sEx 5 6 none .networkError (by decide)).1,
    (failure_appends_localized_error_and_clears_loading sEx 5 6 none .networkError
      (by decide)).2 (.str fallbackErrorMsg) rfl⟩

/-- C4: when the draft is empty or whitespace-only after trimming, or the
loading flag is already set, submission is inert: the state is returned
unchanged and no request is issued. -/
theorem guarded_submit_is_noop (s : AppState) (now now2 : Nat)
    (apiKey : Option String) (upstream : UpstreamResult)
    (hg : submitGuardFails s = true) :
    handleSubmit s now now2 apiKey upstream = (s, none) := by
  simp [handleSubmit, submitPhase1, hg]

/-- Witness for C4: a whitespace-only draft. -/
theorem guarded_submit_is_noop_witness :
    submitGuardFails { sEx with input := " \n " } = true
    ∧ handleSubmit { sEx with input := " \n " } 5 6 (some "gsk_test") .networkError
        = ({ sEx with input := " \n " }, none) :=
  ⟨by decide,
    guarded_submit_is_noop { sEx with input := " \n " } 5 6 (some "gsk_test") .networkError
      (by decide)⟩

/-- C5: on gateway success exactly one assistant turn is appended after the
user turn and its content is the returned value, unchanged. -/
theorem success_appends_reply_verbatim (s : AppState) (now now2 : Nat)
    (apiKey : Option String) (upstream : UpstreamResult) (v : JsVal)
    (hg : submitGuardFails s = false)
    (hok : (callGroqAPI apiKey (s.messages ++ [userMessageOf s now]) upstream).result = .ok v) :
    (handleSubmit s now now2 apiKey upstream).1.messages
      = s.messages ++ [userMessageOf s now,
          { id := toString now2, content := v, role := .assistant }] := by
  simp [handleSubmit, submitPhase1, hg, resolveCall, hok]

/-- Witness for C5: a well-formed upstream body returning `"Hello!"`. -/
theorem success_appends_reply_verbatim_witness :
    submitGuardFails sEx = false
    ∧ (callGroqAPI (some "gsk_test") (sEx.messages ++ [userMessageOf sEx 5]) (.ok goodData)).result
        = .ok (.str "Hello!")
    ∧ (handleSubmit sEx 5 6 (some "gsk_test") (.ok goodData)).1.messages
        = sEx.messages ++ [userMessageOf sEx 5,
            { id := toString 6, content := .str "Hello!", role := .assistant }] :=
  ⟨by decide, rfl,
    success_appends_reply_verbatim sEx 5 6 (some "gsk_test") (.ok goodData) (.str "Hello!")
      (by decide) rfl⟩

/-- C6: with no credential configured (absent or empty), the gateway issues
no request and the call fails. -/
theorem missing_credential_fails_without_request (apiKey : Option String)
    (msgs : List Message) (upstream : UpstreamResult)
    (h : credentialMissing apiKey = true) :
    (callGroqAPI apiKey msgs upstream).request = none
    ∧ (callGroqAPI apiKey msgs upstream).result = .error (.str fallbackErrorMsg) := by
  simp [callGroqAPI, h]

/-- Witness for C6: an absent credential. -/
theorem missing_credential_fails_without_request_witness :
    credentialMissing none = true
    ∧ (callGroqAPI none [] (.ok goodData)).request = none
    ∧ (callGroqAPI none [] (.ok goodData)).result = .error (.str fallbackErrorMsg) :=
  ⟨rfl, (missing_credential_fails_without_request none [] (.ok goodData) rfl).1,
    (missing_credential_fails_without_request none [] (.ok goodData) rfl).2⟩

/-- C7: "new chat" always results in an empty transcript and an empty draft,
whatever the prior state, and touches nothing else. -/
theorem newChat_clears_transcript_and_draft (s : AppState) :
    (newChat s).messages = [] ∧ (newChat s).input = ""
    ∧ (newChat s).isLoading = s.isLoading
    ∧ (newChat s).activeTool = s.activeTool
    ∧ (newChat s).lang = s.lang :=
  ⟨rfl, rfl, rfl, rfl, rfl⟩

/-- Counterexample to C8: on the body `{choices: [{message: {}}]}` — a shape
that does not contain `choices[0].message.content` — the gateway does not
fail at all: property access on an object merely lacking the key yields
`undefined` without throwing, so the call returns the loosely-typed value
`undefined` as its success result. -/
theorem missing_content_returns_undefined_not_failure :
    (callGroqAPI (some "gsk_test") [] (.ok noContentData)).result = .ok .undefined := rfl

/-- C8 amended: on success the gateway returns whatever
`choices[0].message.content` evaluates to; when an intermediate step of that
path is missing (no `choices`, no first element, no `message`) the access
throws and the gateway fails — with the generic fallback error, not a
distinct MalformedResponse value; and whenever `choices[0].message` is an
object that merely lacks a `content` key, the gateway returns `undefined`
instead of failing. -/
theorem gateway_extraction_amended (apiKey : String) (msgs : List Message) (data : JsVal)
    (hk : credentialMissing (some apiKey) = false) :
    (∀ v, extractContent data = .ok v →
        (callGroqAPI (some apiKey) msgs (.ok data)).result = .ok v)
    ∧ (extractContent data = .error () →
        (callGroqAPI (some apiKey) msgs (.ok data)).result = .error (.str fallbackErrorMsg))
    ∧ (∀ c c0 mf, jsGet data "choices" = .ok c → jsIndex c 0 = .ok c0 →
        jsGet c0 "message" = .ok (JsVal.obj mf) → mf.lookup "content" = none →
        (callGroqAPI (some apiKey) msgs (.ok data)).result = .ok .undefined) := by
  refine ⟨?_, ?_, ?_⟩
  · intro v hv
    simp [callGroqAPI, hk, hv]
  · intro hu
    simp [callGroqAPI, hk, hu]
  · intro c c0 mf h1 h2 h3 hmf
    have hext : extractContent data = .ok .undefined := by
      simp only [extractContent, h1, h2, h3]
      simp [jsGet, hmf]
    simp [callGroqAPI, hk, hext]

/-- Witness for C8 amended: at `{choices: [{message: {content: "Hello!"}}]}`
the first conjunct yields `"Hello!"`, and at `{choices: [{message: {}}]}`
the third conjunct yields the `undefined` return. -/
theorem gateway_extraction_amended_witness :
    credentialMissing (some "gsk_test") = false
    ∧ (callGroqAPI (some "gsk_test") [] (.ok goodData)).result = .ok (.str "Hello!")
    ∧ (callGroqAPI (some "gsk_test") [] (.ok noContentData)).result = .ok .undefined :=
  ⟨rfl,
    (gateway_extraction_amended "gsk_test" [] goodData rfl).1 (.str "Hello!") rfl,
    (gateway_extraction_amended "gsk_test" [] noContentData rfl).2.2
      (.arr [.obj [("message", .obj [])]]) (.obj [("message", .obj [])]) [] rfl rfl rfl rfl⟩

/-- C9: if "new chat" fires while a call is in flight, the resolution is not
cancelled: because the append is a functional update on the current state, it
lands on the reset transcript, leaving exactly one assistant turn (the reply
on success, the localized error otherwise) with no preceding user turn, and
the loading flag cleared. -/
theorem reset_midflight_still_appends_reply (s : AppState) (now now2 : Nat)
    (result : Except JsVal JsVal)
    (hg : submitGuardFails s = false) :
    (resolveCall (newChat (submitPhase1 s now).1) now2 result).messages
      = [{ id := toString now2
           content := match result with
             | .ok v => v
             | .error _ => .str (tApiError s.lang)
           role := .assistant }]
    ∧ (resolveCall (newChat (submitPhase1 s now).1) now2 result).isLoading = false := by
  cases result with
  | ok v => simp [resolveCall, newChat, submitPhase1, hg]
  | error e => simp [resolveCall, newChat, submitPhase1, hg]

/-- Witness for C9: a concrete successful reply resolving after a reset. -/
theorem reset_midflight_still_appends_reply_witness :
    submitGuardFails sEx = false
    ∧ (resolveCall (newChat (submitPhase1 sEx 5).1) 6 (.ok (.str "Hello!"))).messages
        = [{ id := toString 6, content := .str "Hello!", role := .assistant }]
    ∧ (resolveCall (newChat (submitPhase1 sEx 5).1) 6 (.ok (.str "Hello!"))).isLoading = false :=
  ⟨by decide,
    (reset_midflight_still_appends_reply sEx 5 6 (.ok (.str "Hello!")) (by decide)).1,
    (reset_midflight_still_appends_reply sEx 5 6 (.ok (.str "Hello!")) (by decide)).2⟩

/-- C10: at startup with a credential configured, exactly one test request is
issued, carrying the single user message "Hello" capped at 10 output tokens,
and the component state is returned unchanged whatever the outcome. -/
theorem startup_test_sends_hello_and_preserves_state (s : AppState) (apiKey : String)
    (h : credentialMissing (some apiKey) = false) :
    startupEffect s (some apiKey)
      = (s, some
          { url := "https://api.groq.com/v1/chat/completions"
            model := "mixtral-8x7b-32768"
            messages := [("user", .str "Hello")]
            temperature := none
            maxTokens := 10 }) := by
  simp [startupEffect, h]

/-- Witness for C10 at a concrete state and credential. -/
theorem startup_test_sends_hello_and_preserves_state_witness :
    credentialMissing (some "gsk_test") = false
    ∧ startupEffect sEx (some "gsk_test")
        = (sEx, some
            { url := "https://api.groq.com/v1/chat/completions"
              model := "mixtral-8x7b-32768"
              messages := [("user", .str "Hello")]
              temperature := none
              maxTokens := 10 }) :=
  ⟨rfl, startup_test_sends_hello_and_preserves_state sEx "gsk_test" rfl⟩
